import Mathlib

set_option maxRecDepth 8000

/-!
Shallow embedding of the event-uplink pipeline of the
SmartEquipmentCabinet_LwIP-STM32Net repository.

The embedded code comes from:
  - uplink_types.h   (compile-time capacities, error enum, message/policy types)
  - uplink_queue.c   (bounded ring-buffer queue)
  - uplink_retry.c   (attempt admission and exponential-backoff delay)
  - uplink_codec_json.c (envelope building and app-code extraction)
  - uplink_config.c  (validation of the configuration)
  - uplink.c         (core: enqueue / poll state machine)

Machine integers are modelled as Nat (unsigned) or Int (signed) with explicit
reduction modulo 2^32 / 2^16 exactly where the C arithmetic can wrap.  Signed
int32 overflow (undefined behaviour in ISO C) is modelled as two's-complement
wraparound, the behaviour of the ARM target this firmware is compiled for.
C strings are modelled as Lean String (byte = ASCII char for all inputs the
device handles); response bodies are modelled as List Char together with their
explicit length, matching the (body, body_len) calling convention of the code.
-/

/-- Modulus of 32-bit unsigned arithmetic. -/
def U32 : Nat := 4294967296

/-- Modulus of 16-bit unsigned arithmetic. -/
def U16 : Nat := 65536

/-- Largest value of the C type int32_t. -/
def INT32_MAX : Int := 2147483647

/-- Compile-time capacity `UPLINK_MAX_TYPE_LEN` (includes the NUL byte). -/
def UPLINK_MAX_TYPE_LEN : Nat := 32

/-- Compile-time capacity `UPLINK_MAX_PAYLOAD_LEN` (includes the NUL byte). -/
def UPLINK_MAX_PAYLOAD_LEN : Nat := 256

/-- Compile-time capacity `UPLINK_MAX_EVENT_JSON_LEN` (includes the NUL byte). -/
def UPLINK_MAX_EVENT_JSON_LEN : Nat := 512

/-- Compile-time capacity `UPLINK_MAX_HTTP_BODY_LEN` (includes the NUL byte). -/
def UPLINK_MAX_HTTP_BODY_LEN : Nat := 512

/-- Compile-time ring-queue capacity bound `UPLINK_QUEUE_MAX_LEN`. -/
def UPLINK_QUEUE_MAX_LEN : Nat := 8

/-- Sentinel `UPLINK_APP_CODE_UNKNOWN = (int32_t)0x7fffffff` from uplink_types.h. -/
def UPLINK_APP_CODE_UNKNOWN : Int := 2147483647

/-- Error enum `uplink_err_t` from uplink_types.h. -/
inductive uplink_err_t where
  | UPLINK_OK
  | UPLINK_ERR_INVALID_ARG
  | UPLINK_ERR_NOT_INIT
  | UPLINK_ERR_QUEUE_FULL
  | UPLINK_ERR_QUEUE_EMPTY
  | UPLINK_ERR_BUFFER_TOO_SMALL
  | UPLINK_ERR_UNSUPPORTED
  | UPLINK_ERR_TRANSPORT
  | UPLINK_ERR_CODEC
  | UPLINK_ERR_INTERNAL
  deriving DecidableEq, Repr

open uplink_err_t

/-- Retry policy `uplink_retry_policy_t` from uplink_types.h.
Field types in C: base_delay_ms, max_delay_ms are uint32_t; max_attempts is
uint16_t; jitter_pct is uint8_t.  The uint32/uint16/uint8 bounds appear as
hypotheses of the theorems where they matter. -/
structure uplink_retry_policy_t where
  base_delay_ms : Nat
  max_delay_ms : Nat
  max_attempts : Nat
  jitter_pct : Nat
  deriving DecidableEq, Repr

/-- Embedding of `uplink_retry_is_attempt_allowed` (uplink_retry.c).
The C `policy == NULL` branch is dropped: callers in the repository always pass
the address of the context's policy. -/
def uplink_retry_is_attempt_allowed (policy : uplink_retry_policy_t)
    (next_attempt : Nat) : Bool :=
  if policy.max_attempts = 0 then true
  else decide (next_attempt ≤ policy.max_attempts)

/-- Iteration of the doubling loop body of `uplink_retry_calc_delay_ms`
(uplink_retry.c lines 77-95).  The C loop `for (i = 1; i < attempt; i++)`
executes the body attempt-1 times; the `break` after `delay = max_delay` is
equivalent to continuing, because the first branch maps max_delay to itself.
`max_delay_ms / 2U` is C unsigned (truncating) division; `delay * 2U` is
uint32 arithmetic, hence the explicit mod. -/
def backoffIter (max_delay : Nat) : Nat → Nat → Nat
  | 0, delay => delay
  | n + 1, delay =>
      if delay ≥ max_delay then
        backoffIter max_delay n max_delay
      else if delay > max_delay / 2 then
        backoffIter max_delay n max_delay
      else
        backoffIter max_delay n ((delay * 2) % U32)

/-- Embedding of `uplink_retry_calc_delay_ms` (uplink_retry.c).
The C `policy == NULL` branch is dropped (callers pass &u->cfg.retry).
All uint32 multiplications/additions carry an explicit `% U32`; the
subtraction `delay - jitter` cannot underflow because the code clamps
`jitter ≤ delay` first, so Nat subtraction agrees with the C uint32
subtraction there. -/
def uplink_retry_calc_delay_ms (policy : uplink_retry_policy_t)
    (attempt : Nat) (rand_u32 : Nat) : Nat :=
  let attempt1 := if attempt = 0 then 1 else attempt
  let delay := backoffIter policy.max_delay_ms (attempt1 - 1) policy.base_delay_ms
  if policy.jitter_pct = 0 then delay
  else
    let jitter0 := ((delay * policy.jitter_pct) % U32) / 100
    let jitter := if jitter0 > delay then delay else jitter0
    if jitter = 0 then delay
    else
      let range := (2 * jitter + 1) % U32
      let offset := if range = 0 then 0 else rand_u32 % range
      let result := ((delay - jitter) + offset) % U32
      if result > policy.max_delay_ms then policy.max_delay_ms else result

example : uplink_retry_calc_delay_ms ⟨500, 10000, 3, 0⟩ 1 0 = 500 := by decide
example : uplink_retry_calc_delay_ms ⟨500, 10000, 3, 0⟩ 2 0 = 1000 := by decide
example : uplink_retry_calc_delay_ms ⟨500, 10000, 3, 0⟩ 6 0 = 10000 := by decide
example : uplink_retry_is_attempt_allowed ⟨500, 10000, 3, 0⟩ 4 = false := by decide

/-- C-locale `isspace` on bytes: space, \t, \n, \v, \f, \r
(uplink_codec_json.c calls `isspace((unsigned char)body[pos])`). -/
def isSpaceC (c : Char) : Bool :=
  c = ' ' || c = '\t' || c = '\n' || c = Char.ofNat 11 || c = Char.ofNat 12 || c = '\r'

/-- Two's-complement wraparound into the int32_t range, used to model
C int32 arithmetic at the points where it can overflow. -/
def toInt32 (x : Int) : Int := (x + 2147483648) % 4294967296 - 2147483648

/-- Scan for the first occurrence of the 6-byte pattern `"code"` and return the
suffix after it (uplink_codec_json.c lines 137-150: the loop requires a full
6-byte window, `i + 6U <= body_len`). -/
def findCodeKey : List Char → Option (List Char)
  | '"' :: 'c' :: 'o' :: 'd' :: 'e' :: '"' :: rest => some rest
  | _ :: t => findCodeKey t
  | [] => none

/-- Digit-accumulation loop of `uplink_codec_json_parse_app_code`
(uplink_codec_json.c lines 192-206): while the next byte is a decimal digit,
if `value > INT32_MAX / 10` saturate to INT32_MAX, otherwise
`value = value * 10 + digit` in int32 arithmetic (two's-complement wrap on
overflow).  Returns the final value and the has_digit flag. -/
def parseDigitsSat : Int → Bool → List Char → Int × Bool
  | value, has_digit, c :: rest =>
      if '0' ≤ c ∧ c ≤ '9' then
        let value' := if value > INT32_MAX / 10 then INT32_MAX
                      else toInt32 (value * 10 + ((c.toNat : Int) - 48))
        parseDigitsSat value' true rest
      else (value, has_digit)
  | value, has_digit, [] => (value, has_digit)

/-- Sign-and-digits tail of `uplink_codec_json_parse_app_code` (lines 180-212):
the parsed value is `(int32_t)(sign * value)` when at least one digit was
read, otherwise `out_code` keeps its UNKNOWN default. -/
def parseSignedTail (sign : Int) (l : List Char) : Int :=
  let p := parseDigitsSat 0 false l
  if p.2 then toInt32 (sign * p.1) else UPLINK_APP_CODE_UNKNOWN

/-- Embedding of `uplink_codec_json_parse_app_code` (uplink_codec_json.c).
The NULL-pointer branches are dropped (callers pass valid buffers); every
remaining path of the C function returns UPLINK_OK, so only the produced
`*out_code` is modelled.  The body is the first `body_len` bytes. -/
def uplink_codec_json_parse_app_code (body : List Char) (body_len : Nat) : Int :=
  let b := body.take body_len
  match findCodeKey b with
  | none => UPLINK_APP_CODE_UNKNOWN
  | some rest =>
    match rest.dropWhile isSpaceC with
    | ':' :: r2 =>
      match r2.dropWhile isSpaceC with
      | '-' :: t => parseSignedTail (-1) t
      | t => parseSignedTail 1 t
    | _ => UPLINK_APP_CODE_UNKNOWN

example : uplink_codec_json_parse_app_code ("\x7b\"code\":0\x7d").data 10 = 0 := by decide
example : uplink_codec_json_parse_app_code ("\x7b\"code\": -17\x7d").data 14 = -17 := by decide
example : uplink_codec_json_parse_app_code ("\x7b\"ok\":1\x7d").data 8 = UPLINK_APP_CODE_UNKNOWN := by decide
example : uplink_codec_json_parse_app_code [] 0 = UPLINK_APP_CODE_UNKNOWN := by decide

/-- Modelled from the spec (§4.3), for comparison with the code:
`parse_status_code(body) -> Option<i32>`; absence of the field (or an
unparsable value) yields "unknown" = none; a found value is an
optionally-signed decimal integer parsed with saturation to the signed
32-bit range (beyond-range values saturate rather than wrap). -/
def specSatDigits : Nat → Bool → List Char → Nat × Bool
  | value, has_digit, c :: rest =>
      if '0' ≤ c ∧ c ≤ '9' then
        specSatDigits (value * 10 + (c.toNat - 48)) true rest
      else (value, has_digit)
  | value, has_digit, [] => (value, has_digit)

/-- Modelled from the spec (§4.3): saturation of an exact integer to the
signed 32-bit range. -/
def specSatI32 (x : Int) : Int :=
  if x > INT32_MAX then INT32_MAX
  else if x < -2147483648 then -2147483648
  else x

/-- Modelled from the spec (§4.3): the spec-side status-code parse, same
field scan as the code, exact arithmetic saturated to i32. -/
def spec_parse_status_code (body : List Char) (body_len : Nat) : Option Int :=
  let b := body.take body_len
  match findCodeKey b with
  | none => none
  | some rest =>
    match rest.dropWhile isSpaceC with
    | ':' :: r2 =>
      match r2.dropWhile isSpaceC with
      | '-' :: t =>
        let p := specSatDigits 0 false t
        if p.2 then some (specSatI32 (-(p.1 : Int))) else none
      | t =>
        let p := specSatDigits 0 false t
        if p.2 then some (specSatI32 (p.1 : Int)) else none
    | _ => none

/-- Embedding of `uplink_codec_json_build_event` (uplink_codec_json.c).
A NULL payload and an empty payload are both normalized to the empty JSON
object; the envelope string is the exact snprintf format
`{"deviceId":"%s","messageId":%lu,"ts":%lu,"type":"%s","payload":%s}`.
If the formatted length does not fit in `out_json_len - 1` bytes the output
is truncated and UPLINK_ERR_BUFFER_TOO_SMALL is returned (the written length
is then `out_json_len - 1`).  The C `written < 0` branch cannot occur for
this format string and is dropped; NULL-pointer argument checks other than
the payload are dropped (callers pass valid buffers).  Result: (error code,
buffer contents, *out_written). -/
def uplink_codec_json_build_event (out_json_len : Nat) (device_id : String)
    (message_id : Nat) (ts_ms : Nat) (type : String)
    (payload_json : Option String) : uplink_err_t × String × Nat :=
  if out_json_len = 0 then (UPLINK_ERR_INVALID_ARG, "", 0)
  else
    let payload := match payload_json with
      | none => "\x7b\x7d"
      | some p => if p = "" then "\x7b\x7d" else p
    let s := "\x7b\"deviceId\":\"" ++ device_id ++ "\",\"messageId\":"
              ++ toString message_id ++ ",\"ts\":" ++ toString ts_ms
              ++ ",\"type\":\"" ++ type ++ "\",\"payload\":" ++ payload ++ "\x7d"
    if s.length ≥ out_json_len then
      (UPLINK_ERR_BUFFER_TOO_SMALL, s.take (out_json_len - 1), out_json_len - 1)
    else (UPLINK_OK, s, s.length)

example :
    (uplink_codec_json_build_event 512 ("stm32f4") 1 5 ("LIGHT_ADC")
      (some ("\x7b\"adc\":1234\x7d"))).2.1 =
    "\x7b\"deviceId\":\"stm32f4\",\"messageId\":1,\"ts\":5,\"type\":\"LIGHT_ADC\",\"payload\":\x7b\"adc\":1234\x7d\x7d" := by
  decide

/-- Message type `uplink_msg_t` from uplink_types.h.  The two char arrays are
modelled as Lean strings; message_id/created_ms/next_retry_ms are uint32_t
and attempt is uint16_t in C. -/
structure uplink_msg_t where
  message_id : Nat
  created_ms : Nat
  type : String
  payload_json : String
  attempt : Nat
  next_retry_ms : Nat
  deriving DecidableEq, Repr

/-- All-zero message, the result of `memset(.., 0, ..)` on an uplink_msg_t
(zeroed char arrays read back as empty strings). -/
def uplink_msg_zero : uplink_msg_t :=
  { message_id := 0, created_ms := 0, type := "", payload_json := ""
    attempt := 0, next_retry_ms := 0 }

/-- Queue type `uplink_queue_t` from uplink_queue.h: a fixed
UPLINK_QUEUE_MAX_LEN element array with head/tail/count/capacity
(all uint16_t in C). -/
structure uplink_queue_t where
  items : List uplink_msg_t
  head : Nat
  tail : Nat
  count : Nat
  capacity : Nat
  deriving DecidableEq, Repr

/-- Embedding of `uplink_queue_init` (uplink_queue.c): zero the structure and
clamp the capacity into 1..UPLINK_QUEUE_MAX_LEN. -/
def uplink_queue_init (capacity : Nat) : uplink_queue_t :=
  { items := List.replicate UPLINK_QUEUE_MAX_LEN uplink_msg_zero
    head := 0, tail := 0, count := 0
    capacity :=
      if capacity = 0 then 1
      else if capacity > UPLINK_QUEUE_MAX_LEN then UPLINK_QUEUE_MAX_LEN
      else capacity }

/-- Embedding of `uplink_queue_is_empty` (uplink_queue.c). -/
def uplink_queue_is_empty (q : uplink_queue_t) : Bool := q.count = 0

/-- Embedding of `uplink_queue_is_full` (uplink_queue.c): `count >= capacity`. -/
def uplink_queue_is_full (q : uplink_queue_t) : Bool := q.count ≥ q.capacity

/-- Embedding of `uplink_queue_size` (uplink_queue.c). -/
def uplink_queue_size (q : uplink_queue_t) : Nat := q.count

/-- Embedding of `uplink_queue_push` (uplink_queue.c).  NULL-pointer checks
are dropped (the embedding passes values).  On success the message is copied
into the tail slot, the tail advances around the ring, and count grows. -/
def uplink_queue_push (q : uplink_queue_t) (msg : uplink_msg_t) :
    uplink_err_t × uplink_queue_t :=
  if uplink_queue_is_full q then (UPLINK_ERR_QUEUE_FULL, q)
  else
    (UPLINK_OK,
      { q with
        items := q.items.set q.tail msg
        tail := if q.tail + 1 ≥ q.capacity then 0 else q.tail + 1
        count := q.count + 1 })

/-- Embedding of `uplink_queue_peek` (uplink_queue.c): the error code together
with the head element (`*out_msg`), or none when the queue is empty. -/
def uplink_queue_peek (q : uplink_queue_t) : uplink_err_t × Option uplink_msg_t :=
  if uplink_queue_is_empty q then (UPLINK_ERR_QUEUE_EMPTY, none)
  else (UPLINK_OK, some (q.items.getD q.head uplink_msg_zero))

/-- Embedding of `uplink_queue_pop` (uplink_queue.c): the removed slot is
zeroed (the C memset, observable only for debugging), the head advances
around the ring, and count shrinks. -/
def uplink_queue_pop (q : uplink_queue_t) : uplink_err_t × uplink_queue_t :=
  if uplink_queue_is_empty q then (UPLINK_ERR_QUEUE_EMPTY, q)
  else
    (UPLINK_OK,
      { q with
        items := q.items.set q.head uplink_msg_zero
        head := if q.head + 1 ≥ q.capacity then 0 else q.head + 1
        count := q.count - 1 })

/-- In-place update of the head element through the pointer returned by
`uplink_queue_peek` (uplink.c updates `head->attempt` and
`head->next_retry_ms` this way while holding the lock). -/
def uplink_queue_update_head (q : uplink_queue_t) (f : uplink_msg_t → uplink_msg_t) :
    uplink_queue_t :=
  { q with items := q.items.set q.head (f (q.items.getD q.head uplink_msg_zero)) }

/-- Scheme enum `uplink_scheme_t` from uplink_types.h. -/
inductive uplink_scheme_t where
  | UPLINK_SCHEME_HTTP
  | UPLINK_SCHEME_HTTPS
  deriving DecidableEq, Repr

/-- Endpoint `uplink_endpoint_t` from uplink_types.h (port is uint16_t,
use_dns is uint8_t). -/
structure uplink_endpoint_t where
  scheme : uplink_scheme_t
  host : String
  port : Nat
  path : String
  use_dns : Nat
  deriving DecidableEq, Repr

/-- Configuration `uplink_config_t` from uplink_config.h.  The anonymous
nested `tls` struct is flattened into the tls_-prefixed fields. -/
structure uplink_config_t where
  endpoint : uplink_endpoint_t
  device_id : String
  queue_len : Nat
  send_timeout_ms : Nat
  recv_timeout_ms : Nat
  retry : uplink_retry_policy_t
  tls_enable : Nat
  tls_verify_server : Nat
  tls_sni_host : String
  deriving DecidableEq, Repr

/-- Embedding of `uplink_config_set_defaults` (uplink_config.c). -/
def uplink_config_set_defaults : uplink_config_t :=
  { endpoint :=
      { scheme := uplink_scheme_t.UPLINK_SCHEME_HTTP
        host := "172.18.8.18", port := 8080, path := "/api/uplink", use_dns := 0 }
    device_id := "stm32f4"
    queue_len := UPLINK_QUEUE_MAX_LEN
    send_timeout_ms := 2000
    recv_timeout_ms := 2000
    retry := { base_delay_ms := 500, max_delay_ms := 10000
               max_attempts := 10, jitter_pct := 20 }
    tls_enable := 0, tls_verify_server := 0, tls_sni_host := "" }

/-- Embedding of `uplink_config_validate` (uplink_config.c).  The
`cfg == NULL` check is dropped (the embedding passes a value); a C char
array whose first byte is NUL reads back as the empty string. -/
def uplink_config_validate (cfg : uplink_config_t) : uplink_err_t :=
  if cfg.endpoint.host = "" then UPLINK_ERR_INVALID_ARG
  else if cfg.endpoint.port = 0 then UPLINK_ERR_INVALID_ARG
  else if cfg.endpoint.path = "" then UPLINK_ERR_INVALID_ARG
  else if cfg.device_id = "" then UPLINK_ERR_INVALID_ARG
  else if cfg.queue_len = 0 ∨ cfg.queue_len > UPLINK_QUEUE_MAX_LEN then UPLINK_ERR_INVALID_ARG
  else if cfg.send_timeout_ms = 0 ∨ cfg.recv_timeout_ms = 0 then UPLINK_ERR_INVALID_ARG
  else if cfg.retry.base_delay_ms = 0 ∨ cfg.retry.max_delay_ms < cfg.retry.base_delay_ms then
    UPLINK_ERR_INVALID_ARG
  else if cfg.retry.jitter_pct > 100 then UPLINK_ERR_INVALID_ARG
  else if cfg.tls_enable ≠ 0 ∧ cfg.endpoint.scheme ≠ uplink_scheme_t.UPLINK_SCHEME_HTTPS then
    UPLINK_ERR_INVALID_ARG
  else UPLINK_OK

/-- Core context `uplink_t` from uplink.h.  The mutex is not modelled: every
embedded operation is one critical section (or, for poll, a sequence of
critical sections whose interleavings the claims treat as one sequential
run).  The platform function pointers (now_ms, rand_u32, log) are modelled
as oracle arguments of the operations; the transport binding and its netconn
context are modelled by the transport-outcome oracle of poll. -/
structure uplink_t where
  inited : Bool
  sending : Bool
  cfg : uplink_config_t
  queue : uplink_queue_t
  next_message_id : Nat
  event_json : String
  response_body : List Char
  deriving DecidableEq, Repr

/-- Embedding of the static helper `uplink_copy_str_checked` (uplink.c):
result is (truncated?, bytes stored in dst).  A NULL src is stored as the
empty string with no truncation; otherwise strncpy copies at most
dst_size - 1 bytes, the last byte is forced to NUL, and truncation is
reported iff `strlen(src) >= dst_size`. -/
def uplink_copy_str_checked (dst_size : Nat) (src : Option String) : Bool × String :=
  if dst_size = 0 then (true, "")
  else
    match src with
    | none => (false, "")
    | some s => (decide (s.length ≥ dst_size), s.take (dst_size - 1))

/-- Embedding of `uplink_enqueue_json` (uplink.c).  `now_ms` is the value
returned by the platform now_ms call; the message id is read from the
counter and the counter is post-incremented (uint32) under the lock, before
the push and regardless of the push outcome. -/
def uplink_enqueue_json (u : uplink_t) (type : Option String)
    (payload_json : Option String) (now_ms : Nat) : uplink_err_t × uplink_t :=
  match type with
  | none => (UPLINK_ERR_INVALID_ARG, u)
  | some ty =>
    if u.inited = false then (UPLINK_ERR_NOT_INIT, u)
    else
      let c1 := uplink_copy_str_checked UPLINK_MAX_TYPE_LEN (some ty)
      if c1.1 then (UPLINK_ERR_BUFFER_TOO_SMALL, u)
      else
        let c2 := uplink_copy_str_checked UPLINK_MAX_PAYLOAD_LEN payload_json
        if c2.1 then (UPLINK_ERR_BUFFER_TOO_SMALL, u)
        else
          let msg : uplink_msg_t :=
            { message_id := u.next_message_id, created_ms := now_ms
              type := c1.2, payload_json := c2.2
              attempt := 0, next_retry_ms := now_ms }
          let u1 := { u with next_message_id := (u.next_message_id + 1) % U32 }
          let pr := uplink_queue_push u1.queue msg
          (pr.1, { u1 with queue := pr.2 })

/-- Embedding of the static helper `uplink_time_is_due` (uplink.c):
`(int32_t)(now - due) >= 0` on uint32 operands, i.e. the wrapped difference
lies below 2^31. -/
def uplink_time_is_due (now due : Nat) : Bool :=
  decide ((now + (U32 - due % U32)) % U32 < 2147483648)

/-- Outcome of one `transport.post_json` exchange as observed by uplink_poll:
the returned error code, the HTTP status stored into ack.http_status, and
the bytes stored into u->response_body (whose length is *out_body_len). -/
structure uplink_transport_result_t where
  err : uplink_err_t
  http_status : Nat
  body : List Char
  deriving DecidableEq, Repr

/-- Oracle inputs consumed by one uplink_poll call: the now_ms sample at
entry, the transport outcome, and the rand_u32 and second now_ms samples
used on the failure path when scheduling the retry. -/
structure uplink_poll_env_t where
  now1 : Nat
  transport : uplink_transport_result_t
  rand : Nat
  now2 : Nat
  deriving DecidableEq, Repr

/-- Embedding of `uplink_poll` (uplink.c).  The function returns void; the
model returns the new context.  Notes on fidelity:
  - `next_attempt = (uint16_t)(head->attempt + 1U)` keeps its uint16 wrap;
  - the attempt bookkeeping writes through the peek pointer
    (uplink_queue_update_head) before the message is copied by value;
  - lines 470-475 (`ack.http_status = (ack.http_status == 0) ? 0 : ...`) are
    an identity assignment and are elided;
  - the app code is parsed from (response_body, body_len) exactly as the
    transport stored them;
  - on both the codec-failure path and the post-exchange failure path the
    head is re-peeked and only updated if it still carries the copied
    message id, and `next_retry_ms = now + delay` is uint32 addition. -/
def uplink_poll (u : uplink_t) (env : uplink_poll_env_t) : uplink_t :=
  if u.inited = false then u
  else if u.sending then u
  else
    match (uplink_queue_peek u.queue).2 with
    | none => u
    | some head =>
      if uplink_time_is_due env.now1 head.next_retry_ms = false then u
      else
        let next_attempt := (head.attempt + 1) % U16
        if uplink_retry_is_attempt_allowed u.cfg.retry next_attempt = false then
          { u with queue := (uplink_queue_pop u.queue).2 }
        else
          let q1 := uplink_queue_update_head u.queue
            (fun m => { m with attempt := next_attempt })
          let msg_copy := { head with attempt := next_attempt }
          let u1 := { u with queue := q1, sending := true }
          let be := uplink_codec_json_build_event UPLINK_MAX_EVENT_JSON_LEN
            u.cfg.device_id msg_copy.message_id msg_copy.created_ms
            msg_copy.type (some msg_copy.payload_json)
          if be.1 ≠ UPLINK_OK then
            let u2 := { u1 with sending := false, event_json := be.2.1 }
            match (uplink_queue_peek u2.queue).2 with
            | some h2 =>
              if h2.message_id = msg_copy.message_id then
                let delay := uplink_retry_calc_delay_ms u.cfg.retry msg_copy.attempt env.rand
                let q2 := uplink_queue_update_head u2.queue
                  (fun m => { m with next_retry_ms := (env.now2 + delay) % U32 })
                { u2 with queue := q2 }
              else u2
            | none => u2
          else
            let u2 := { u1 with event_json := be.2.1,
                                response_body := env.transport.body }
            let code := uplink_codec_json_parse_app_code env.transport.body
              env.transport.body.length
            let http_ok := decide (200 ≤ env.transport.http_status ∧
                                   env.transport.http_status < 300)
            let app_ok := decide (code = 0 ∨ code = UPLINK_APP_CODE_UNKNOWN)
            let success := http_ok && app_ok
            let u3 := { u2 with sending := false }
            match (uplink_queue_peek u3.queue).2 with
            | some h2 =>
              if h2.message_id = msg_copy.message_id then
                if success then
                  { u3 with queue := (uplink_queue_pop u3.queue).2 }
                else
                  let delay := uplink_retry_calc_delay_ms u.cfg.retry msg_copy.attempt env.rand
                  let q3 := uplink_queue_update_head u3.queue
                    (fun m => { m with next_retry_ms := (env.now2 + delay) % U32 })
                  { u3 with queue := q3 }
              else u3
            | none => u3

/-- Embedding of `uplink_get_queue_depth` (uplink.c). -/
def uplink_get_queue_depth (u : uplink_t) : Nat :=
  if u.inited = false then 0 else uplink_queue_size u.queue

/-! Concrete fixtures used by scenario conjuncts and witnesses. -/

/-- Sample message with a short type string. -/
def msgA : uplink_msg_t :=
  { message_id := 1, created_ms := 0, type := "A", payload_json := ""
    attempt := 0, next_retry_ms := 0 }

/-- Second sample message. -/
def msgB : uplink_msg_t :=
  { message_id := 2, created_ms := 0, type := "B", payload_json := ""
    attempt := 0, next_retry_ms := 0 }

/-- Freshly initialized queue of capacity 2. -/
def qEmpty2 : uplink_queue_t := uplink_queue_init 2

/-- Capacity-2 queue filled to capacity. -/
def qFull2 : uplink_queue_t :=
  (uplink_queue_push ((uplink_queue_push qEmpty2 msgA).2) msgB).2

/-!
## Claim theorems
-/

/-- C6: pushing into a queue with count == capacity returns QueueFull and
leaves the whole queue state unchanged; popping or peeking a queue with
count == 0 returns QueueEmpty and leaves the queue state unchanged. -/
theorem C6_queue_bounds :
    (∀ (q : uplink_queue_t) (m : uplink_msg_t), q.count = q.capacity →
        uplink_queue_push q m = (UPLINK_ERR_QUEUE_FULL, q)) ∧
    (∀ q : uplink_queue_t, q.count = 0 →
        uplink_queue_pop q = (UPLINK_ERR_QUEUE_EMPTY, q) ∧
        uplink_queue_peek q = (UPLINK_ERR_QUEUE_EMPTY, none)) := by
  refine ⟨fun q m h => ?_, fun q h => ⟨?_, ?_⟩⟩ <;>
    simp [uplink_queue_push, uplink_queue_pop, uplink_queue_peek,
          uplink_queue_is_full, uplink_queue_is_empty, h]

/-- Witness for C6 at a concrete full queue and a concrete empty queue. -/
theorem C6_queue_bounds_witness :
    uplink_queue_push qFull2 msgA = (UPLINK_ERR_QUEUE_FULL, qFull2) ∧
    uplink_queue_pop qEmpty2 = (UPLINK_ERR_QUEUE_EMPTY, qEmpty2) ∧
    uplink_queue_peek qEmpty2 = (UPLINK_ERR_QUEUE_EMPTY, none) :=
  ⟨C6_queue_bounds.1 qFull2 msgA (by decide),
   (C6_queue_bounds.2 qEmpty2 (by decide)).1,
   (C6_queue_bounds.2 qEmpty2 (by decide)).2⟩

/-- Helper: the truncation flag of uplink_copy_str_checked on a present
string is exactly `strlen(src) >= dst_size` (for nonzero dst_size). -/
theorem copy_str_checked_some_fst (n : Nat) (s : String) (hn : n ≠ 0) :
    (uplink_copy_str_checked n (some s)).1 = decide (s.length ≥ n) := by
  simp [uplink_copy_str_checked, hn]

/-- Helper: a NULL src is stored as the empty string without truncation
(for nonzero dst_size). -/
theorem copy_str_checked_none (n : Nat) (hn : n ≠ 0) :
    uplink_copy_str_checked n none = (false, "") := by
  simp [uplink_copy_str_checked, hn]

/-- C7: on an initialized context, a type string that does not fit
UPLINK_MAX_TYPE_LEN (terminating NUL included, i.e. strlen >= capacity) or a
payload string that does not fit UPLINK_MAX_PAYLOAD_LEN makes
uplink_enqueue_json return BufferTooSmall with the whole context — in
particular the queue and the message-id counter — unchanged, so nothing
truncated is ever stored. -/
theorem C7_enqueue_rejects_oversized (u : uplink_t) (ty : String)
    (payload : Option String) (now_ms : Nat) (hin : u.inited = true) :
    (ty.length ≥ UPLINK_MAX_TYPE_LEN →
      uplink_enqueue_json u (some ty) payload now_ms = (UPLINK_ERR_BUFFER_TOO_SMALL, u)) ∧
    (∀ p, payload = some p → p.length ≥ UPLINK_MAX_PAYLOAD_LEN →
      uplink_enqueue_json u (some ty) payload now_ms = (UPLINK_ERR_BUFFER_TOO_SMALL, u)) := by
  constructor
  · intro h
    have e1 : (uplink_copy_str_checked UPLINK_MAX_TYPE_LEN (some ty)).1 = true := by
      rw [copy_str_checked_some_fst _ _ (by decide)]
      simpa using h
    simp [uplink_enqueue_json, hin, e1]
  · intro p hp h
    subst hp
    by_cases e1 : (uplink_copy_str_checked UPLINK_MAX_TYPE_LEN (some ty)).1 = true
    · simp [uplink_enqueue_json, hin, e1]
    · have e1f : (uplink_copy_str_checked UPLINK_MAX_TYPE_LEN (some ty)).1 = false :=
        Bool.not_eq_true _ ▸ Bool.of_not_eq_true e1
      have e2 : (uplink_copy_str_checked UPLINK_MAX_PAYLOAD_LEN (some p)).1 = true := by
        rw [copy_str_checked_some_fst _ _ (by decide)]
        simpa using h
      simp [uplink_enqueue_json, hin, e1f, e2]

/-- Witness for C7: a 32-char type string and a 256-char payload are both
rejected on a concrete initialized context. -/
theorem C7_enqueue_rejects_oversized_witness :
    uplink_enqueue_json
      { inited := true, sending := false, cfg := uplink_config_set_defaults
        queue := qEmpty2, next_message_id := 1, event_json := "", response_body := [] }
      (some (String.mk (List.replicate 32 'x'))) none 0 =
      (UPLINK_ERR_BUFFER_TOO_SMALL,
        { inited := true, sending := false, cfg := uplink_config_set_defaults
          queue := qEmpty2, next_message_id := 1, event_json := "", response_body := [] }) ∧
    uplink_enqueue_json
      { inited := true, sending := false, cfg := uplink_config_set_defaults
        queue := qEmpty2, next_message_id := 1, event_json := "", response_body := [] }
      (some ("T")) (some (String.mk (List.replicate 256 'y'))) 0 =
      (UPLINK_ERR_BUFFER_TOO_SMALL,
        { inited := true, sending := false, cfg := uplink_config_set_defaults
          queue := qEmpty2, next_message_id := 1, event_json := "", response_body := [] }) :=
  ⟨(C7_enqueue_rejects_oversized _ _ none 0 rfl).1 (by decide),
   (C7_enqueue_rejects_oversized _ ("T") _ 0 rfl).2
     (String.mk (List.replicate 256 'y')) rfl (by decide)⟩

/-- C9: on an initialized context, once both bounded-string copies succeed,
uplink_enqueue_json increments next_message_id by exactly one modulo 2^32 —
also when the push fails with QueueFull, in which case the queue itself is
unchanged (so the next admitted id is not consecutive); the only possible
results then are Ok and QueueFull. -/
theorem C9_message_id_increment (u : uplink_t) (ty : String)
    (payload : Option String) (now_ms : Nat) (hin : u.inited = true)
    (hty : (uplink_copy_str_checked UPLINK_MAX_TYPE_LEN (some ty)).1 = false)
    (hpl : (uplink_copy_str_checked UPLINK_MAX_PAYLOAD_LEN payload).1 = false) :
    (uplink_enqueue_json u (some ty) payload now_ms).2.next_message_id =
      (u.next_message_id + 1) % U32 ∧
    ((uplink_enqueue_json u (some ty) payload now_ms).1 = UPLINK_OK ∨
     (uplink_enqueue_json u (some ty) payload now_ms).1 = UPLINK_ERR_QUEUE_FULL) ∧
    ((uplink_enqueue_json u (some ty) payload now_ms).1 = UPLINK_ERR_QUEUE_FULL →
     (uplink_enqueue_json u (some ty) payload now_ms).2.queue = u.queue) := by
  by_cases hfull : uplink_queue_is_full u.queue = true
  · simp [uplink_enqueue_json, hin, hty, hpl, uplink_queue_push, hfull]
  · have hf : uplink_queue_is_full u.queue = false :=
      Bool.not_eq_true _ ▸ Bool.of_not_eq_true hfull
    simp [uplink_enqueue_json, hin, hty, hpl, uplink_queue_push, hf]

/-- Witness for C9: enqueue onto a full capacity-2 queue still bumps the id
counter while reporting QueueFull. -/
theorem C9_message_id_increment_witness :
    (uplink_enqueue_json
      { inited := true, sending := false, cfg := uplink_config_set_defaults
        queue := qFull2, next_message_id := 7, event_json := "", response_body := [] }
      (some ("T")) none 0).2.next_message_id = 8 ∧
    (uplink_enqueue_json
      { inited := true, sending := false, cfg := uplink_config_set_defaults
        queue := qFull2, next_message_id := 7, event_json := "", response_body := [] }
      (some ("T")) none 0).1 = UPLINK_ERR_QUEUE_FULL := by
  refine ⟨?_, by decide⟩
  have h := C9_message_id_increment
    { inited := true, sending := false, cfg := uplink_config_set_defaults
      queue := qFull2, next_message_id := 7, event_json := "", response_body := [] }
    ("T") none 0 rfl (by decide) (by decide)
  simpa using h.1

/-- C10: on an initialized context with a fitting type, a NULL payload is
accepted (never InvalidArgument / BufferTooSmall): the call behaves exactly
like pushing the message whose payload_json is the empty string, and the
codec normalizes both a NULL payload and an empty payload to the empty JSON
object when building the envelope. -/
theorem C10_null_payload_ok (u : uplink_t) (ty : String) (now_ms : Nat)
    (hin : u.inited = true) (hty : ty.length < UPLINK_MAX_TYPE_LEN) :
    uplink_enqueue_json u (some ty) none now_ms =
      ((uplink_queue_push u.queue
          { message_id := u.next_message_id, created_ms := now_ms
            type := ty.take (UPLINK_MAX_TYPE_LEN - 1), payload_json := ""
            attempt := 0, next_retry_ms := now_ms }).1,
        { u with
          next_message_id := (u.next_message_id + 1) % U32
          queue := (uplink_queue_push u.queue
            { message_id := u.next_message_id, created_ms := now_ms
              type := ty.take (UPLINK_MAX_TYPE_LEN - 1), payload_json := ""
              attempt := 0, next_retry_ms := now_ms }).2 }) ∧
    (uplink_enqueue_json u (some ty) none now_ms).1 ≠ UPLINK_ERR_INVALID_ARG ∧
    (uplink_enqueue_json u (some ty) none now_ms).1 ≠ UPLINK_ERR_BUFFER_TOO_SMALL ∧
    (∀ len dev mid ts T,
      uplink_codec_json_build_event len dev mid ts T none =
        uplink_codec_json_build_event len dev mid ts T (some ("\x7b\x7d")) ∧
      uplink_codec_json_build_event len dev mid ts T (some "") =
        uplink_codec_json_build_event len dev mid ts T (some ("\x7b\x7d"))) := by
  have e1f : (uplink_copy_str_checked UPLINK_MAX_TYPE_LEN (some ty)).1 = false := by
    rw [copy_str_checked_some_fst _ _ (by decide)]
    simpa using Nat.not_le.2 hty
  have e1s : (uplink_copy_str_checked UPLINK_MAX_TYPE_LEN (some ty)).2 =
      ty.take (UPLINK_MAX_TYPE_LEN - 1) := by
    simp [uplink_copy_str_checked, UPLINK_MAX_TYPE_LEN]
  have e2 := copy_str_checked_none UPLINK_MAX_PAYLOAD_LEN (by decide)
  refine ⟨?_, ?_, ?_, ?_⟩
  · simp [uplink_enqueue_json, hin, e1f, e2, e1s]
  · by_cases hfull : uplink_queue_is_full u.queue = true
    · simp [uplink_enqueue_json, hin, e1f, e2, uplink_queue_push, hfull]
    · have hf : uplink_queue_is_full u.queue = false :=
        Bool.not_eq_true _ ▸ Bool.of_not_eq_true hfull
      simp [uplink_enqueue_json, hin, e1f, e2, uplink_queue_push, hf]
  · by_cases hfull : uplink_queue_is_full u.queue = true
    · simp [uplink_enqueue_json, hin, e1f, e2, uplink_queue_push, hfull]
    · have hf : uplink_queue_is_full u.queue = false :=
        Bool.not_eq_true _ ▸ Bool.of_not_eq_true hfull
      simp [uplink_enqueue_json, hin, e1f, e2, uplink_queue_push, hf]
  · intro len dev mid ts T
    constructor <;> simp [uplink_codec_json_build_event]

/-- Witness for C10 on a concrete context. -/
theorem C10_null_payload_ok_witness :
    (uplink_enqueue_json
      { inited := true, sending := false, cfg := uplink_config_set_defaults
        queue := qEmpty2, next_message_id := 1, event_json := "", response_body := [] }
      (some ("LIGHT_ADC")) none 0).1 ≠ UPLINK_ERR_INVALID_ARG :=
  (C10_null_payload_ok
    { inited := true, sending := false, cfg := uplink_config_set_defaults
      queue := qEmpty2, next_message_id := 1, event_json := "", response_body := [] }
    ("LIGHT_ADC") 0 rfl (by decide)).2.1

/-- Modelled from the spec (§4.2 step 1), for comparison with the code:
`delay = base_delay * 2^(attempt_number - 1)`, computed iteratively and
clamped to max_delay at every doubling step — once the running delay is at
least half of max_delay (in exact arithmetic, `2*delay ≥ max_delay`), jump
straight to max_delay. -/
def specBackoffIter (max_delay : Nat) : Nat → Nat → Nat
  | 0, d => d
  | k + 1, d =>
      if 2 * d ≥ max_delay then specBackoffIter max_delay k max_delay
      else specBackoffIter max_delay k (2 * d)

/-- Modelled from the spec (§4.2 step 1): the un-jittered backoff delay for
a 1-based attempt number. -/
def spec_backoff_delay (p : uplink_retry_policy_t) (attempt : Nat) : Nat :=
  specBackoffIter p.max_delay_ms (attempt - 1) p.base_delay_ms

/-- Helper: the code's doubling loop equals the spec's doubling loop for any
delay in 1..max_delay (the `% U32` never truncates because the loop only
doubles a delay that is at most max_delay / 2). -/
theorem backoffIter_eq_specIter (max : Nat) (hmax : max < U32) :
    ∀ k d, 1 ≤ d → d ≤ max → backoffIter max k d = specBackoffIter max k d := by
  intro k
  induction k with
  | zero => intro d _ _; rfl
  | succ k ih =>
    intro d hd1 hdm
    by_cases h1 : d ≥ max
    · have hj : 2 * d ≥ max := by omega
      simp only [backoffIter, specBackoffIter, if_pos h1, if_pos hj]
      exact ih max (by omega) (le_refl max)
    · by_cases h2 : d > max / 2
      · have hj : 2 * d ≥ max := by omega
        simp only [backoffIter, specBackoffIter, if_neg h1, if_pos h2, if_pos hj]
        exact ih max (by omega) (le_refl max)
      · have h2d : 2 * d ≤ max := by omega
        have hmod : (d * 2) % U32 = 2 * d := by
          rw [Nat.mod_eq_of_lt (by omega)]
          ring
        by_cases h3 : 2 * d ≥ max
        · have h2deq : 2 * d = max := le_antisymm h2d h3
          simp only [backoffIter, specBackoffIter, if_neg h1, if_neg h2, if_pos h3]
          rw [hmod, h2deq]
          exact ih max (by omega) (le_refl max)
        · simp only [backoffIter, specBackoffIter, if_neg h1, if_neg h2, if_neg h3]
          rw [hmod]
          exact ih (2 * d) (by omega) (by omega)

/-- Helper: closed form of the spec doubling loop,
`min (d * 2^k) max_delay`. -/
theorem specBackoffIter_min (max : Nat) :
    ∀ k d, d ≤ max → specBackoffIter max k d = min (d * 2 ^ k) max := by
  intro k
  induction k with
  | zero => intro d hdm; simp [specBackoffIter, Nat.min_eq_left hdm]
  | succ k ih =>
    intro d hdm
    have hp : 1 ≤ 2 ^ k := Nat.one_le_two_pow
    by_cases h : 2 * d ≥ max
    · simp only [specBackoffIter, if_pos h]
      rw [ih max (le_refl max)]
      have h1 : max ≤ max * 2 ^ k := Nat.le_mul_of_pos_right max hp
      have h2 : max ≤ d * 2 ^ (k + 1) := by
        have hm : max * 1 ≤ 2 * d * 2 ^ k := Nat.mul_le_mul h hp
        calc max = max * 1 := (Nat.mul_one max).symm
          _ ≤ 2 * d * 2 ^ k := hm
          _ = d * 2 ^ (k + 1) := by ring
      rw [Nat.min_eq_right h1, Nat.min_eq_right h2]
    · simp only [specBackoffIter, if_neg h]
      rw [ih (2 * d) (by omega)]
      have e : 2 * d * 2 ^ k = d * 2 ^ (k + 1) := by ring
      rw [e]

/-- C3: for a validated policy (base ≥ 1, base ≤ max, both uint32) with
jitter_percent = 0, compute_delay(n) equals the spec's iteratively-clamped
exponential backoff spec_backoff_delay(n), whose closed form is
min(base * 2^(n-1), max); hence it is non-decreasing in the attempt number
and never exceeds max_delay. -/
theorem C3_backoff_monotone_bounded (p : uplink_retry_policy_t)
    (hb : 1 ≤ p.base_delay_ms) (hbm : p.base_delay_ms ≤ p.max_delay_ms)
    (hmax : p.max_delay_ms < U32) (hj : p.jitter_pct = 0) :
    (∀ n r, 1 ≤ n → uplink_retry_calc_delay_ms p n r = spec_backoff_delay p n) ∧
    (∀ n r, 1 ≤ n → uplink_retry_calc_delay_ms p n r =
        min (p.base_delay_ms * 2 ^ (n - 1)) p.max_delay_ms) ∧
    (∀ n r r', 1 ≤ n →
        uplink_retry_calc_delay_ms p n r ≤ uplink_retry_calc_delay_ms p (n + 1) r') ∧
    (∀ n r, uplink_retry_calc_delay_ms p n r ≤ p.max_delay_ms) := by
  have hspec : ∀ n r, 1 ≤ n →
      uplink_retry_calc_delay_ms p n r = spec_backoff_delay p n := by
    intro n r hn
    have hn0 : n ≠ 0 := by omega
    simp only [uplink_retry_calc_delay_ms, hj, if_neg hn0, spec_backoff_delay,
               if_pos rfl]
    exact backoffIter_eq_specIter _ hmax _ _ hb hbm
  have heq : ∀ n r, 1 ≤ n → uplink_retry_calc_delay_ms p n r =
      min (p.base_delay_ms * 2 ^ (n - 1)) p.max_delay_ms := by
    intro n r hn
    rw [hspec n r hn, spec_backoff_delay, specBackoffIter_min _ _ _ hbm]
  refine ⟨hspec, heq, ?_, ?_⟩
  · intro n r r' hn
    rw [heq n r hn, heq (n + 1) r' (by omega)]
    have hmono : p.base_delay_ms * 2 ^ (n - 1) ≤ p.base_delay_ms * 2 ^ (n + 1 - 1) :=
      Nat.mul_le_mul_left _ (Nat.pow_le_pow_right (by norm_num) (by omega))
    exact min_le_min hmono (le_refl _)
  · intro n r
    by_cases hn : 1 ≤ n
    · rw [heq n r hn]
      exact Nat.min_le_right _ _
    · have hn0 : n = 0 := by omega
      subst hn0
      simp only [uplink_retry_calc_delay_ms, hj, if_pos rfl]
      simpa [backoffIter] using hbm

/-- Witness for C3 at the scenario policy base=500, max=10000, jitter=0. -/
theorem C3_backoff_monotone_bounded_witness :
    uplink_retry_calc_delay_ms ⟨500, 10000, 3, 0⟩ 5 0 = min (500 * 2 ^ 4) 10000 ∧
    uplink_retry_calc_delay_ms ⟨500, 10000, 3, 0⟩ 2 0 ≤
      uplink_retry_calc_delay_ms ⟨500, 10000, 3, 0⟩ 3 0 ∧
    uplink_retry_calc_delay_ms ⟨500, 10000, 3, 0⟩ 9 0 ≤ 10000 :=
  ⟨(C3_backoff_monotone_bounded ⟨500, 10000, 3, 0⟩ (by decide) (by decide)
      (by decide) rfl).2.1 5 0 (by decide),
   (C3_backoff_monotone_bounded ⟨500, 10000, 3, 0⟩ (by decide) (by decide)
      (by decide) rfl).2.2.1 2 0 0 (by decide),
   (C3_backoff_monotone_bounded ⟨500, 10000, 3, 0⟩ (by decide) (by decide)
      (by decide) rfl).2.2.2 9 0⟩

/-- Helper: reading the slot just written (C array indexing). -/
theorem list_getD_set_self {α : Type} (l : List α) (n : Nat) (a d : α)
    (h : n < l.length) : (l.set n a).getD n d = a := by
  simp [List.getD_eq_getElem?_getD, List.getElem?_set_self, h]

/-- Helper: reading a slot other than the one written (C array indexing). -/
theorem list_getD_set_ne {α : Type} (l : List α) (n m : Nat) (a d : α)
    (h : n ≠ m) : (l.set n a).getD m d = l.getD m d := by
  simp [List.getD_eq_getElem?_getD, List.getElem?_set_ne h]

/-- The C1 claim as stated: when a poll reaches the transport exchange
(initialized, not sending, head peeked, due, attempt admitted, codec ok, on
a context whose queue array is intact) and the head is still the sent
message, the head is popped exactly when the HTTP status is 2xx and the
spec-level parsed application code is unknown (absent/unparsable — i.e.
none) or 0; otherwise the head remains with next_eligible_at = now +
compute_delay(policy, attempt just used, rand). -/
def C1_claim_statement : Prop :=
  ∀ (u : uplink_t) (env : uplink_poll_env_t) (head : uplink_msg_t),
    u.inited = true → u.sending = false →
    u.queue.head < u.queue.items.length →
    (uplink_queue_peek u.queue).2 = some head →
    uplink_time_is_due env.now1 head.next_retry_ms = true →
    uplink_retry_is_attempt_allowed u.cfg.retry ((head.attempt + 1) % U16) = true →
    (uplink_codec_json_build_event UPLINK_MAX_EVENT_JSON_LEN u.cfg.device_id
      head.message_id head.created_ms head.type (some head.payload_json)).1 = UPLINK_OK →
    (((200 ≤ env.transport.http_status ∧ env.transport.http_status < 300) ∧
      (spec_parse_status_code env.transport.body env.transport.body.length = none ∨
       spec_parse_status_code env.transport.body env.transport.body.length = some 0)) →
        (uplink_poll u env).queue.count = u.queue.count - 1) ∧
    (¬ ((200 ≤ env.transport.http_status ∧ env.transport.http_status < 300) ∧
      (spec_parse_status_code env.transport.body env.transport.body.length = none ∨
       spec_parse_status_code env.transport.body env.transport.body.length = some 0)) →
        (uplink_queue_peek (uplink_poll u env).queue).2 =
          some { head with
                 attempt := (head.attempt + 1) % U16
                 next_retry_ms := (env.now2 + uplink_retry_calc_delay_ms u.cfg.retry
                   ((head.attempt + 1) % U16) env.rand) % U32 })

/-- The single message of the C1 fixture queue. -/
def c1_msg : uplink_msg_t :=
  { message_id := 1, created_ms := 0, type := "LIGHT_ADC"
    payload_json := "\x7b\"adc\":7\x7d", attempt := 0, next_retry_ms := 0 }

/-- Initialized context holding exactly c1_msg (retry: base 500, max 10000,
max_attempts 3, jitter 0). -/
def c1_u : uplink_t :=
  { inited := true, sending := false
    cfg := { uplink_config_set_defaults with
             retry := { base_delay_ms := 500, max_delay_ms := 10000
                        max_attempts := 3, jitter_pct := 0 } }
    queue := (uplink_queue_push (uplink_queue_init 8) c1_msg).2
    next_message_id := 2, event_json := "", response_body := [] }

/-- Poll environment whose response carries the explicit application code
2147483647: it parses to the UNKNOWN sentinel, so the code treats it as
success. -/
def c1_sentinel_env : uplink_poll_env_t :=
  { now1 := 0
    transport := { err := UPLINK_OK, http_status := 200
                   body := ("\x7b\"code\":2147483647\x7d").data }
    rand := 0, now2 := 0 }

/-- C1 counterexample: with HTTP 200 and body carrying the explicit
application code 2147483647 (neither absent nor 0, so per the claim the
head must remain queued), the code parses it into the UNKNOWN sentinel
0x7fffffff, declares success, and pops the head. -/
theorem C1_success_predicate_counterexample : ¬ C1_claim_statement := by
  intro h
  have hh := (h c1_u c1_sentinel_env c1_msg (by decide) (by decide) (by decide)
    (by decide) (by decide) (by decide) (by decide)).2 (by decide)
  exact absurd hh (by decide)

/-- C1 amended: same hypotheses, but the success predicate is the one the
code evaluates — 2xx together with the parsed int32 app code being 0 or
equal to the UNKNOWN sentinel 0x7fffffff (which the parse yields when the
field is absent or unparsable, but also when the body carries an explicit
or saturated 2147483647): the head is popped exactly then; otherwise it
remains (count unchanged) with attempt = attempt just used and
next_eligible_at = now + compute_delay(policy, that attempt, rand) in
uint32 arithmetic. -/
theorem C1_success_predicate_amended (u : uplink_t) (env : uplink_poll_env_t)
    (head : uplink_msg_t)
    (hin : u.inited = true) (hs : u.sending = false)
    (hq : u.queue.head < u.queue.items.length)
    (hpeek : (uplink_queue_peek u.queue).2 = some head)
    (hdue : uplink_time_is_due env.now1 head.next_retry_ms = true)
    (hallow : uplink_retry_is_attempt_allowed u.cfg.retry ((head.attempt + 1) % U16) = true)
    (hcodec : (uplink_codec_json_build_event UPLINK_MAX_EVENT_JSON_LEN u.cfg.device_id
      head.message_id head.created_ms head.type (some head.payload_json)).1 = UPLINK_OK) :
    (((200 ≤ env.transport.http_status ∧ env.transport.http_status < 300) ∧
      (uplink_codec_json_parse_app_code env.transport.body env.transport.body.length = 0 ∨
       uplink_codec_json_parse_app_code env.transport.body env.transport.body.length =
         UPLINK_APP_CODE_UNKNOWN)) →
        (uplink_poll u env).queue.count = u.queue.count - 1) ∧
    (¬ ((200 ≤ env.transport.http_status ∧ env.transport.http_status < 300) ∧
      (uplink_codec_json_parse_app_code env.transport.body env.transport.body.length = 0 ∨
       uplink_codec_json_parse_app_code env.transport.body env.transport.body.length =
         UPLINK_APP_CODE_UNKNOWN)) →
        (uplink_poll u env).queue.count = u.queue.count ∧
        (uplink_queue_peek (uplink_poll u env).queue).2 =
          some { head with
                 attempt := (head.attempt + 1) % U16
                 next_retry_ms := (env.now2 + uplink_retry_calc_delay_ms u.cfg.retry
                   ((head.attempt + 1) % U16) env.rand) % U32 }) := by
  have hcnt : ¬ (u.queue.count = 0) := by
    intro hc
    simp [uplink_queue_peek, uplink_queue_is_empty, hc] at hpeek
  have hheadval : u.queue.items[u.queue.head]?.getD uplink_msg_zero = head := by
    simpa [uplink_queue_peek, uplink_queue_is_empty, hcnt] using hpeek
  have hhead : u.queue.items[u.queue.head] = head := by
    have h2 := hheadval
    rw [List.getElem?_eq_getElem hq] at h2
    simpa using h2
  constructor
  · intro hP
    simp [uplink_poll, hin, hs, hpeek, hdue, hallow, hcodec, hP,
          uplink_queue_update_head, uplink_queue_peek, uplink_queue_pop,
          uplink_queue_is_empty, hcnt, hheadval, hhead, List.getD_eq_getElem?_getD,
          List.getElem?_set_self, hq]
  · intro hP
    refine ⟨?_, ?_⟩ <;>
      simp [uplink_poll, hin, hs, hpeek, hdue, hallow, hcodec, hP,
            uplink_queue_update_head, uplink_queue_peek, uplink_queue_pop,
            uplink_queue_is_empty, hcnt, hheadval, hhead, List.getD_eq_getElem?_getD,
            List.getElem?_set_self, hq]

/-- Poll environment with HTTP 200 and application code 0 (clean success). -/
def c1_ok_env : uplink_poll_env_t :=
  { now1 := 0
    transport := { err := UPLINK_OK, http_status := 200
                   body := ("\x7b\"code\":0\x7d").data }
    rand := 0, now2 := 0 }

/-- Poll environment with HTTP 200 but application code 7 (app failure). -/
def c1_code7_env : uplink_poll_env_t :=
  { now1 := 0
    transport := { err := UPLINK_OK, http_status := 200
                   body := ("\x7b\"code\":7\x7d").data }
    rand := 0, now2 := 0 }

/-- Witness for the amended C1: code 0 pops the single queued message; code
7 keeps it queued with attempt 1 and next_retry_ms = 0 + 500. -/
theorem C1_success_predicate_amended_witness :
    (uplink_poll c1_u c1_ok_env).queue.count = c1_u.queue.count - 1 ∧
    (uplink_queue_peek (uplink_poll c1_u c1_code7_env).queue).2 =
      some { message_id := 1, created_ms := 0, type := "LIGHT_ADC"
             payload_json := "\x7b\"adc\":7\x7d", attempt := 1, next_retry_ms := 500 } :=
  ⟨(C1_success_predicate_amended c1_u c1_ok_env c1_msg (by decide) (by decide)
      (by decide) (by decide) (by decide) (by decide) (by decide)).1 (by decide),
   ((C1_success_predicate_amended c1_u c1_code7_env c1_msg (by decide) (by decide)
      (by decide) (by decide) (by decide) (by decide) (by decide)).2 (by decide)).2⟩

/-- Operation alphabet for C5's queue runs: a push of a given message, or a
pop (which removes the message that peek shows at the head). -/
inductive uplink_qop_t where
  | push (m : uplink_msg_t)
  | pop
  deriving DecidableEq, Repr

/-- Run of an operation list against the C ring queue, collecting for every
pop of a non-empty queue the message uplink_queue_peek shows at the head —
the message the pop removes.  A pop of an empty queue removes (and records)
nothing, matching uplink_queue_pop's QueueEmpty behaviour. -/
def runRingQueue : uplink_queue_t → List uplink_qop_t → uplink_queue_t × List uplink_msg_t
  | q, [] => (q, [])
  | q, uplink_qop_t.push m :: ops => runRingQueue (uplink_queue_push q m).2 ops
  | q, uplink_qop_t.pop :: ops =>
    match (uplink_queue_peek q).2 with
    | some m =>
      let rest := runRingQueue (uplink_queue_pop q).2 ops
      (rest.1, m :: rest.2)
    | none => runRingQueue (uplink_queue_pop q).2 ops

/-- Abstraction function: the count messages stored in ring order starting
at the head index. -/
def absQueue (q : uplink_queue_t) : List uplink_msg_t :=
  (List.range q.count).map
    (fun i => q.items.getD ((q.head + i) % q.capacity) uplink_msg_zero)

/-- Reference FIFO semantics of the same operations on a plain list. -/
def runListQueue : List uplink_msg_t → List uplink_qop_t →
    List uplink_msg_t × List uplink_msg_t
  | l, [] => (l, [])
  | l, uplink_qop_t.push m :: ops => runListQueue (l ++ [m]) ops
  | l, uplink_qop_t.pop :: ops =>
    match l with
    | [] => runListQueue [] ops
    | h :: t =>
      let rest := runListQueue t ops
      (rest.1, h :: rest.2)

/-- Decidable check that no push of the run is applied to a full queue. -/
def noFullPush : uplink_queue_t → List uplink_qop_t → Bool
  | _, [] => true
  | q, uplink_qop_t.push m :: ops =>
      !uplink_queue_is_full q && noFullPush (uplink_queue_push q m).2 ops
  | q, uplink_qop_t.pop :: ops => noFullPush (uplink_queue_pop q).2 ops

/-- The messages pushed by an operation list, in order. -/
def pushedMsgs : List uplink_qop_t → List uplink_msg_t
  | [] => []
  | uplink_qop_t.push m :: ops => m :: pushedMsgs ops
  | uplink_qop_t.pop :: ops => pushedMsgs ops

/-- Structural invariant of the C ring queue: fixed backing array, capacity
in 1..UPLINK_QUEUE_MAX_LEN, head inside the ring, tail determined by
head + count around the ring, occupancy within capacity. -/
def queueWF (q : uplink_queue_t) : Prop :=
  q.items.length = UPLINK_QUEUE_MAX_LEN ∧ 1 ≤ q.capacity ∧
  q.capacity ≤ UPLINK_QUEUE_MAX_LEN ∧ q.head < q.capacity ∧
  q.tail = (q.head + q.count) % q.capacity ∧ q.count ≤ q.capacity

/-- Helper: adding inside the ring modulus on the left operand. -/
theorem ring_mod_add (x c i : Nat) : (x % c + i) % c = (x + i) % c :=
  Nat.ModEq.add_right i (Nat.mod_modEq x c)

/-- Helper: distinct in-range offsets land on distinct ring slots. -/
theorem ring_index_ne (h c a b : Nat) (ha : a < c) (hb : b < c) (hne : a ≠ b) :
    (h + a) % c ≠ (h + b) % c := by
  intro he
  have hab : a % c = b % c := Nat.ModEq.add_left_cancel' h he
  rw [Nat.mod_eq_of_lt ha, Nat.mod_eq_of_lt hb] at hab
  exact hne hab

/-- Helper: the abstraction has length count. -/
theorem absQueue_length (q : uplink_queue_t) : (absQueue q).length = q.count := by
  simp [absQueue]

/-- Helper: the initialized queue is well-formed and abstracts to []. -/
theorem uplink_queue_init_wf (cap : Nat) (h1 : 1 ≤ cap)
    (h8 : cap ≤ UPLINK_QUEUE_MAX_LEN) :
    queueWF (uplink_queue_init cap) ∧ absQueue (uplink_queue_init cap) = [] := by
  have h0 : cap ≠ 0 := by omega
  have h8' : ¬ cap > UPLINK_QUEUE_MAX_LEN := by omega
  constructor
  · refine ⟨?_, ?_, ?_, ?_, ?_, ?_⟩ <;>
      simp [uplink_queue_init, queueWF, h0, h8'] <;> omega
  · simp [absQueue, uplink_queue_init]

/-- Helper: pushing below capacity succeeds, preserves the invariant, and
appends the message to the abstraction. -/
theorem uplink_queue_push_step (q : uplink_queue_t) (m : uplink_msg_t)
    (hwf : queueWF q) (hlt : q.count < q.capacity) :
    (uplink_queue_push q m).1 = UPLINK_OK ∧
    queueWF (uplink_queue_push q m).2 ∧
    absQueue (uplink_queue_push q m).2 = absQueue q ++ [m] := by
  obtain ⟨hlen, hc1, hc8, hh, ht, hcc⟩ := hwf
  have hfull : uplink_queue_is_full q = false := by
    simp [uplink_queue_is_full]
    omega
  have hcpos : 0 < q.capacity := by omega
  have htlt : q.tail < q.capacity := by
    rw [ht]
    exact Nat.mod_lt _ hcpos
  have hpush : uplink_queue_push q m =
      (UPLINK_OK,
        { q with items := (q.items.set q.tail m),
                 tail := if q.tail + 1 ≥ q.capacity then 0 else q.tail + 1,
                 count := q.count + 1 }) := by
    simp [uplink_queue_push, hfull]
  have htail' : (if q.tail + 1 ≥ q.capacity then 0 else q.tail + 1) =
      (q.head + (q.count + 1)) % q.capacity := by
    have h2 : (q.tail + 1) % q.capacity = (q.head + q.count + 1) % q.capacity := by
      rw [ht]
      exact ring_mod_add _ _ 1
    by_cases hcase : q.tail + 1 ≥ q.capacity
    · have he : q.tail + 1 = q.capacity := by omega
      rw [if_pos hcase]
      calc (0 : Nat) = (q.tail + 1) % q.capacity := by rw [he, Nat.mod_self]
        _ = (q.head + q.count + 1) % q.capacity := h2
        _ = (q.head + (q.count + 1)) % q.capacity := by rw [Nat.add_assoc]
    · rw [if_neg hcase]
      calc q.tail + 1 = (q.tail + 1) % q.capacity := (Nat.mod_eq_of_lt (by omega)).symm
        _ = (q.head + q.count + 1) % q.capacity := h2
        _ = (q.head + (q.count + 1)) % q.capacity := by rw [Nat.add_assoc]
  refine ⟨by rw [hpush], ?_, ?_⟩
  · rw [hpush]
    exact ⟨by simpa using hlen, hc1, hc8, hh, htail',
           show q.count + 1 ≤ q.capacity by omega⟩
  · rw [hpush]
    simp only [absQueue]
    rw [List.range_succ, List.map_append]
    congr 1
    · apply List.map_congr_left
      intro i hi
      have hi' : i < q.count := List.mem_range.1 hi
      apply list_getD_set_ne
      rw [ht]
      exact ring_index_ne q.head q.capacity q.count i (by omega) (by omega) (by omega)
    · simp only [List.map_cons, List.map_nil]
      rw [← ht, list_getD_set_self _ _ _ _ (by omega)]

/-- Helper: popping a non-empty queue preserves the invariant and drops the
first element of the abstraction. -/
theorem uplink_queue_pop_step (q : uplink_queue_t) (hwf : queueWF q)
    (hne : q.count ≠ 0) :
    queueWF (uplink_queue_pop q).2 ∧
    absQueue (uplink_queue_pop q).2 = (absQueue q).tail := by
  obtain ⟨hlen, hc1, hc8, hh, ht, hcc⟩ := hwf
  have hemp : uplink_queue_is_empty q = false := by
    simp [uplink_queue_is_empty, hne]
  have hcpos : 0 < q.capacity := by omega
  have hpop : uplink_queue_pop q =
      (UPLINK_OK,
        { q with items := (q.items.set q.head uplink_msg_zero),
                 head := if q.head + 1 ≥ q.capacity then 0 else q.head + 1,
                 count := q.count - 1 }) := by
    simp [uplink_queue_pop, hemp]
  have hhead' : (if q.head + 1 ≥ q.capacity then 0 else q.head + 1) =
      (q.head + 1) % q.capacity := by
    by_cases hcase : q.head + 1 ≥ q.capacity
    · have he : q.head + 1 = q.capacity := by omega
      rw [if_pos hcase, he, Nat.mod_self]
    · rw [if_neg hcase, Nat.mod_eq_of_lt (by omega)]
  obtain ⟨k, hk⟩ : ∃ k, q.count = k + 1 := ⟨q.count - 1, by omega⟩
  constructor
  · rw [hpop]
    refine ⟨by simpa using hlen, hc1, hc8, ?_, ?_,
            show q.count - 1 ≤ q.capacity by omega⟩
    · show (if q.head + 1 ≥ q.capacity then 0 else q.head + 1) < q.capacity
      rw [hhead']
      exact Nat.mod_lt _ hcpos
    · show q.tail =
        ((if q.head + 1 ≥ q.capacity then 0 else q.head + 1) + (q.count - 1)) % q.capacity
      rw [hhead', ring_mod_add, ht]
      congr 1
      omega
  · rw [hpop]
    simp only [absQueue]
    rw [hk]
    simp only [Nat.add_sub_cancel]
    rw [List.range_succ_eq_map]
    simp only [List.map_cons, List.tail_cons, List.map_map]
    apply List.map_congr_left
    intro i hi
    have hi' : i < k := List.mem_range.1 hi
    rw [hhead', ring_mod_add]
    rw [list_getD_set_ne]
    · congr 2
      omega
    · intro he
      have h8 : (q.head + (1 + i)) % q.capacity = (q.head + 0) % q.capacity := by
        rw [Nat.add_zero, Nat.mod_eq_of_lt hh, ← Nat.add_assoc]
        exact he.symm
      have h9 : (1 + i) % q.capacity = 0 % q.capacity :=
        Nat.ModEq.add_left_cancel' q.head h8
      rw [Nat.zero_mod, Nat.mod_eq_of_lt (by omega)] at h9
      omega

/-- Helper: peek returns the first element of the abstraction. -/
theorem uplink_queue_peek_abs (q : uplink_queue_t) (hwf : queueWF q) :
    (uplink_queue_peek q).2 = (absQueue q).head? := by
  obtain ⟨hlen, hc1, hc8, hh, ht, hcc⟩ := hwf
  by_cases hc : q.count = 0
  · simp [uplink_queue_peek, uplink_queue_is_empty, hc, absQueue]
  · obtain ⟨k, hk⟩ : ∃ k, q.count = k + 1 := ⟨q.count - 1, by omega⟩
    rw [absQueue, hk, List.range_succ_eq_map]
    simp [uplink_queue_peek, uplink_queue_is_empty, hc, Nat.mod_eq_of_lt hh]

/-- Helper: the ring run refines the list run — same collected pops, and the
final ring state abstracts to the final list state. -/
theorem runRingQueue_refines (ops : List uplink_qop_t) :
    ∀ q : uplink_queue_t, queueWF q → noFullPush q ops = true →
    queueWF (runRingQueue q ops).1 ∧
    absQueue (runRingQueue q ops).1 = (runListQueue (absQueue q) ops).1 ∧
    (runRingQueue q ops).2 = (runListQueue (absQueue q) ops).2 := by
  induction ops with
  | nil =>
    intro q hwf _
    exact ⟨hwf, rfl, rfl⟩
  | cons op ops ih =>
    intro q hwf hnf
    cases op with
    | push m =>
      have hnf' : (!uplink_queue_is_full q && noFullPush (uplink_queue_push q m).2 ops) = true := hnf
      rw [Bool.and_eq_true] at hnf'
      have hlt : q.count < q.capacity := by
        have h1 : uplink_queue_is_full q = false := by
          cases hfl : uplink_queue_is_full q
          · rfl
          · rw [hfl] at hnf'
            simp at hnf'
        have := h1
        simp [uplink_queue_is_full] at this
        omega
      obtain ⟨hok, hwf', habs'⟩ := uplink_queue_push_step q m hwf hlt
      have hr := ih (uplink_queue_push q m).2 hwf' hnf'.2
      have hstep : runRingQueue q (uplink_qop_t.push m :: ops) =
          runRingQueue (uplink_queue_push q m).2 ops := by
        simp only [runRingQueue]
      have hlstep : runListQueue (absQueue q) (uplink_qop_t.push m :: ops) =
          runListQueue (absQueue q ++ [m]) ops := by
        simp only [runListQueue]
      rw [hstep, hlstep, ← habs']
      exact hr
    | pop =>
      have hnf' : noFullPush (uplink_queue_pop q).2 ops = true := hnf
      by_cases hc : q.count = 0
      · have hpeek : (uplink_queue_peek q).2 = none := by
          simp [uplink_queue_peek, uplink_queue_is_empty, hc]
        have hpop : (uplink_queue_pop q).2 = q := by
          simp [uplink_queue_pop, uplink_queue_is_empty, hc]
        have habs : absQueue q = [] := by
          simp [absQueue, hc]
        have hr := ih q hwf (by rw [hpop] at hnf'; exact hnf')
        have hring : runRingQueue q (uplink_qop_t.pop :: ops) = runRingQueue q ops := by
          simp only [runRingQueue, hpeek, hpop]
        rw [hring, habs]
        simp only [runListQueue]
        rw [← habs]
        exact hr
      · have hpeek : (uplink_queue_peek q).2 = (absQueue q).head? :=
          uplink_queue_peek_abs q hwf
        obtain ⟨h0, t0, habs⟩ : ∃ h0 t0, absQueue q = h0 :: t0 := by
          cases habs : absQueue q with
          | nil =>
            have := absQueue_length q
            rw [habs] at this
            simp at this
            omega
          | cons h0 t0 => exact ⟨h0, t0, rfl⟩
        obtain ⟨hwf', habs'⟩ := uplink_queue_pop_step q hwf hc
        have hr := ih (uplink_queue_pop q).2 hwf' hnf'
        have hring : runRingQueue q (uplink_qop_t.pop :: ops) =
            ((runRingQueue (uplink_queue_pop q).2 ops).1,
             h0 :: (runRingQueue (uplink_queue_pop q).2 ops).2) := by
          simp only [runRingQueue, hpeek, habs, List.head?_cons]
        have htail : absQueue (uplink_queue_pop q).2 = t0 := by
          rw [habs', habs]
          rfl
        rw [hring, habs]
        simp only [runListQueue]
        rw [htail] at hr
        exact ⟨hr.1, hr.2.1, by rw [hr.2.2]⟩

/-- Helper: FIFO property of the list semantics — the collected pops
followed by the residue are exactly the initial content followed by the
pushes, in order. -/
theorem runListQueue_fifo (ops : List uplink_qop_t) :
    ∀ l : List uplink_msg_t,
      (runListQueue l ops).2 ++ (runListQueue l ops).1 = l ++ pushedMsgs ops := by
  induction ops with
  | nil =>
    intro l
    simp [runListQueue, pushedMsgs]
  | cons op ops ih =>
    intro l
    cases op with
    | push m =>
      simp only [runListQueue, pushedMsgs]
      rw [ih (l ++ [m])]
      simp
    | pop =>
      cases l with
      | nil =>
        simp only [runListQueue, pushedMsgs]
        exact ih []
      | cons h t =>
        simp only [runListQueue, pushedMsgs]
        rw [List.cons_append, ih t]
        rfl

/-- C5: for any operation sequence on an initialized queue in which no push
is applied to a full queue, the sequence of messages removed by pop,
followed by the messages still stored (in head-to-tail order), equals the
sequence of pushed messages in push order — so pops remove exactly the
oldest pushed messages in FIFO order; and on every well-formed queue state
peek returns the head of that stored sequence, i.e. the oldest un-removed
message. -/
theorem C5_queue_fifo (cap : Nat) (ops : List uplink_qop_t)
    (hc1 : 1 ≤ cap) (hc8 : cap ≤ UPLINK_QUEUE_MAX_LEN)
    (hnf : noFullPush (uplink_queue_init cap) ops = true) :
    (runRingQueue (uplink_queue_init cap) ops).2 ++
      absQueue (runRingQueue (uplink_queue_init cap) ops).1 = pushedMsgs ops ∧
    (∀ q : uplink_queue_t, queueWF q →
      (uplink_queue_peek q).2 = (absQueue q).head?) := by
  obtain ⟨hwf0, habs0⟩ := uplink_queue_init_wf cap hc1 hc8
  have hr := runRingQueue_refines ops (uplink_queue_init cap) hwf0 hnf
  constructor
  · rw [hr.2.2, hr.2.1, habs0]
    have := runListQueue_fifo ops []
    simpa using this
  · intro q hq
    exact uplink_queue_peek_abs q hq

/-- Operation list for the C5 witness: two pushes, a pop, a push, two pops,
never exceeding capacity 2. -/
def c5_ops : List uplink_qop_t :=
  [uplink_qop_t.push msgA, uplink_qop_t.push msgB, uplink_qop_t.pop,
   uplink_qop_t.push msgA, uplink_qop_t.pop, uplink_qop_t.pop]

/-- Witness for C5 on a concrete capacity-2 run: pops deliver A, B, A in
push order and the queue drains. -/
theorem C5_queue_fifo_witness :
    (runRingQueue (uplink_queue_init 2) c5_ops).2 ++
      absQueue (runRingQueue (uplink_queue_init 2) c5_ops).1 = pushedMsgs c5_ops :=
  (C5_queue_fifo 2 c5_ops (by decide) (by decide) (by decide)).1

/-- Modelled from the spec (§4.2): the un-jittered exponential backoff value
(closed form of the iteratively clamped doubling). -/
def unjittered_delay (p : uplink_retry_policy_t) (attempt : Nat) : Nat :=
  min (p.base_delay_ms * 2 ^ (attempt - 1)) p.max_delay_ms

/-- Modelled from the spec (§4.2 step 3): jitter = delay * jitter_percent /
100, clamped so jitter ≤ delay. -/
def spec_jitter (p : uplink_retry_policy_t) (attempt : Nat) : Nat :=
  min (unjittered_delay p attempt * p.jitter_pct / 100) (unjittered_delay p attempt)

/-- The C8 claim as stated: for every validated policy (uint32 fields,
jitter percent in 0..100) and every attempt/random input, compute_delay
lies within [delay - jitter, delay + jitter] clamped to max_delay. -/
def C8_claim_statement : Prop :=
  ∀ (p : uplink_retry_policy_t) (n r : Nat),
    1 ≤ p.base_delay_ms → p.base_delay_ms ≤ p.max_delay_ms →
    p.max_delay_ms < U32 → p.jitter_pct ≤ 100 → 1 ≤ n →
    unjittered_delay p n - spec_jitter p n ≤ uplink_retry_calc_delay_ms p n r ∧
    uplink_retry_calc_delay_ms p n r ≤
      min (unjittered_delay p n + spec_jitter p n) p.max_delay_ms

/-- Policy exhibiting the uint32 wrap in the jitter draw: base = max =
2^32 - 1, jitter_pct = 1 (validated by uplink_config_validate's retry
checks). -/
def c8Policy : uplink_retry_policy_t :=
  { base_delay_ms := 4294967295, max_delay_ms := 4294967295
    max_attempts := 3, jitter_pct := 1 }

/-- Helper: a configuration accepted by uplink_config_validate satisfies
exactly the retry-policy hypotheses the C3/C8 theorems assume. -/
theorem config_validate_retry_bounds (cfg : uplink_config_t)
    (h : uplink_config_validate cfg = UPLINK_OK) :
    1 ≤ cfg.retry.base_delay_ms ∧
    cfg.retry.base_delay_ms ≤ cfg.retry.max_delay_ms ∧
    cfg.retry.jitter_pct ≤ 100 := by
  simp only [uplink_config_validate] at h
  split_ifs at h with h1 h2 h3 h4 h5 h6 h7 h8 h9
  all_goals first
    | exact absurd h (by decide)
    | (refine ⟨?_, ?_, ?_⟩ <;> omega)

/-- Helper: the C8 counterexample policy passes the full configuration
validation (inside an otherwise-default config). -/
theorem c8Policy_passes_validation :
    uplink_config_validate { uplink_config_set_defaults with retry := c8Policy } =
      UPLINK_OK := by
  decide

/-- C8 counterexample: the claim fails at policy base = max = 4294967295,
jitter_pct = 1, attempt 1, rand 85899344: delay = 4294967295, jitter =
42949672, so the claimed interval is [4252017623, 4294967295], but
`(delay - jitter) + offset` wraps modulo 2^32 and the code returns
42949671, far below the interval. -/
theorem C8_jitter_bound_counterexample : ¬ C8_claim_statement := by
  intro h
  have h1 := (h c8Policy 1 85899344 (by decide) (by decide) (by decide)
    (by decide) (by decide)).1
  exact absurd h1 (by decide)

/-- C8 amended: for validated policies whose max_delay_ms is at most
2^32 - 1 - 42949672 = 4252017623 (so the uint32 sum delay + jitter cannot
wrap; the computed jitter never exceeds floor((2^32-1)/100) = 42949672),
compute_delay always lies within [delay - jitter, delay + jitter] clamped
to max_delay, where delay is the un-jittered backoff value and jitter is
delay * jitter_percent / 100 clamped to delay. -/
theorem C8_jitter_bound_amended (p : uplink_retry_policy_t) (n r : Nat)
    (hb : 1 ≤ p.base_delay_ms) (hbm : p.base_delay_ms ≤ p.max_delay_ms)
    (hmax : p.max_delay_ms ≤ 4252017623) (_hjp : p.jitter_pct ≤ 100)
    (hn : 1 ≤ n) :
    unjittered_delay p n - spec_jitter p n ≤ uplink_retry_calc_delay_ms p n r ∧
    uplink_retry_calc_delay_ms p n r ≤
      min (unjittered_delay p n + spec_jitter p n) p.max_delay_ms := by
  have hU : (4252017623 : Nat) < U32 := by decide
  have hmaxU : p.max_delay_ms < U32 := by omega
  have hn0 : n ≠ 0 := by omega
  have hd : backoffIter p.max_delay_ms (n - 1) p.base_delay_ms = unjittered_delay p n := by
    rw [backoffIter_eq_specIter _ hmaxU _ _ hb hbm, specBackoffIter_min _ _ _ hbm]
    rfl
  have hDm : unjittered_delay p n ≤ p.max_delay_ms := Nat.min_le_right _ _
  by_cases hjz : p.jitter_pct = 0
  · have : uplink_retry_calc_delay_ms p n r = unjittered_delay p n := by
      simp only [uplink_retry_calc_delay_ms, if_neg hn0, if_pos hjz, hd]
    rw [this]
    refine ⟨Nat.sub_le _ _, le_min (Nat.le_add_right _ _) hDm⟩
  · -- jittered path
    have hcalc : uplink_retry_calc_delay_ms p n r =
        (let D := unjittered_delay p n
         let j0 := ((D * p.jitter_pct) % U32) / 100
         let jc := if j0 > D then D else j0
         if jc = 0 then D
         else
           let range := (2 * jc + 1) % U32
           let offset := if range = 0 then 0 else r % range
           let result := ((D - jc) + offset) % U32
           if result > p.max_delay_ms then p.max_delay_ms else result) := by
      simp only [uplink_retry_calc_delay_ms, if_neg hn0, if_neg hjz, hd]
    rw [hcalc]
    simp only []
    set D := unjittered_delay p n with hDdef
    set j0 := ((D * p.jitter_pct) % U32) / 100 with hj0def
    set jc := if j0 > D then D else j0 with hjcdef
    have hj0small : j0 ≤ 42949672 := by
      have hlt : (D * p.jitter_pct) % U32 < U32 := Nat.mod_lt _ (by decide)
      have : (D * p.jitter_pct) % U32 ≤ 4294967295 := by
        have : U32 = 4294967296 := rfl
        omega
      calc j0 ≤ 4294967295 / 100 := Nat.div_le_div_right this
        _ = 42949672 := by norm_num
    have hjcD : jc ≤ D := by
      rw [hjcdef]
      split <;> omega
    have hjcsmall : jc ≤ 42949672 := by
      rw [hjcdef]
      split <;> omega
    have hjcJ : jc ≤ spec_jitter p n := by
      have hj0le : j0 ≤ D * p.jitter_pct / 100 :=
        Nat.div_le_div_right (Nat.mod_le _ _)
      rw [hjcdef, spec_jitter, ← hDdef]
      by_cases hgt : j0 > D
      · rw [if_pos hgt]
        exact le_min (by omega) (le_refl D)
      · rw [if_neg hgt]
        exact le_min hj0le (by omega)
    by_cases hjc0 : jc = 0
    · rw [if_pos hjc0]
      exact ⟨Nat.sub_le _ _, le_min (Nat.le_add_right _ _) hDm⟩
    · rw [if_neg hjc0]
      have hrange : (2 * jc + 1) % U32 = 2 * jc + 1 := by
        apply Nat.mod_eq_of_lt
        have : U32 = 4294967296 := rfl
        omega
      rw [hrange]
      have hrne : ¬ (2 * jc + 1 = 0) := by omega
      rw [if_neg hrne]
      have hoff : r % (2 * jc + 1) ≤ 2 * jc := by
        have := Nat.mod_lt r (show 0 < 2 * jc + 1 by omega)
        omega
      have hnowrap : (D - jc) + r % (2 * jc + 1) < U32 := by
        have : U32 = 4294967296 := rfl
        omega
      rw [Nat.mod_eq_of_lt hnowrap]
      have hJD : spec_jitter p n ≤ D := Nat.min_le_right _ _
      by_cases hclamp : (D - jc) + r % (2 * jc + 1) > p.max_delay_ms
      · rw [if_pos hclamp]
        constructor
        · omega
        · apply le_min
          · have h1 : (D - jc) + r % (2 * jc + 1) ≤ D + jc := by omega
            have h2 : jc ≤ spec_jitter p n := hjcJ
            omega
          · exact le_refl _
      · rw [if_neg hclamp]
        constructor
        · have : D - jc ≤ (D - jc) + r % (2 * jc + 1) := Nat.le_add_right _ _
          have hsub : D - spec_jitter p n ≤ D - jc := Nat.sub_le_sub_left hjcJ D
          omega
        · apply le_min
          · have h1 : (D - jc) + r % (2 * jc + 1) ≤ D + jc := by omega
            have h2 : jc ≤ spec_jitter p n := hjcJ
            omega
          · omega

/-- Witness for the amended C8 at the default policy (base=500, max=10000,
jitter=20%), attempt 3, a concrete random draw. -/
theorem C8_jitter_bound_amended_witness :
    unjittered_delay ⟨500, 10000, 10, 20⟩ 3 - spec_jitter ⟨500, 10000, 10, 20⟩ 3 ≤
      uplink_retry_calc_delay_ms ⟨500, 10000, 10, 20⟩ 3 123456789 ∧
    uplink_retry_calc_delay_ms ⟨500, 10000, 10, 20⟩ 3 123456789 ≤
      min (unjittered_delay ⟨500, 10000, 10, 20⟩ 3 + spec_jitter ⟨500, 10000, 10, 20⟩ 3)
        10000 :=
  C8_jitter_bound_amended ⟨500, 10000, 10, 20⟩ 3 123456789 (by decide) (by decide)
    (by decide) (by decide) (by decide)

/-- Configuration of the C2 scenario: base_delay=500, max_delay=10000,
max_attempts=3, jitter=0 (spec §8). -/
def c2_cfg : uplink_config_t :=
  { uplink_config_set_defaults with
    retry := { base_delay_ms := 500, max_delay_ms := 10000
               max_attempts := 3, jitter_pct := 0 } }

/-- Initialized context for the C2 scenario. -/
def c2_u0 : uplink_t :=
  { inited := true, sending := false, cfg := c2_cfg
    queue := uplink_queue_init 8, next_message_id := 1
    event_json := "", response_body := [] }

/-- C2 scenario context holding one enqueued message. -/
def c2_u1 : uplink_t :=
  (uplink_enqueue_json c2_u0 (some ("LIGHT_ADC")) (some ("\x7b\"adc\":7\x7d")) 0).2

/-- Poll environment representing a failing transport exchange at time t. -/
def c2_fail_env (t : Nat) : uplink_poll_env_t :=
  { now1 := t, transport := { err := UPLINK_ERR_TRANSPORT, http_status := 500, body := [] }
    rand := 0, now2 := t }

/-- C2 scenario state after the 1st (failing) delivery attempt. -/
def c2_s1 : uplink_t := uplink_poll c2_u1 (c2_fail_env 0)

/-- C2 scenario state after the 2nd (failing) delivery attempt. -/
def c2_s2 : uplink_t := uplink_poll c2_s1 (c2_fail_env 500)

/-- C2 scenario state after the 3rd (failing) delivery attempt. -/
def c2_s3 : uplink_t := uplink_poll c2_s2 (c2_fail_env 1500)

/-- C2 scenario state after the 4th poll, which drops the message. -/
def c2_s4 : uplink_t := uplink_poll c2_s3 (c2_fail_env 3500)

/-- C2: when the head is due and head.attempt + 1 is not admissible
(max_attempts > 0 and head.attempt + 1 > max_attempts), poll pops the head
and does nothing else — the result does not depend on the transport, codec,
rand or second clock sample, which are therefore not invoked; and in the
concrete scenario (base=500, max=10000, max_attempts=3, jitter=0, transport
always failing) the message is still queued with attempt = 3 after three
failing attempts and the 4th poll drops it, returning the depth to 0. -/
theorem C2_attempt_budget_drop (u : uplink_t) (env : uplink_poll_env_t)
    (head : uplink_msg_t)
    (hin : u.inited = true) (hs : u.sending = false)
    (hpeek : (uplink_queue_peek u.queue).2 = some head)
    (hdue : uplink_time_is_due env.now1 head.next_retry_ms = true)
    (hmax : 0 < u.cfg.retry.max_attempts)
    (hover : u.cfg.retry.max_attempts < head.attempt + 1)
    (hbound : head.attempt + 1 < U16) :
    uplink_poll u env = { u with queue := (uplink_queue_pop u.queue).2 } ∧
    uplink_get_queue_depth c2_s1 = 1 ∧
    uplink_get_queue_depth c2_s3 = 1 ∧
    (uplink_queue_peek c2_s3.queue).2 =
      some { message_id := 1, created_ms := 0, type := "LIGHT_ADC"
             payload_json := "\x7b\"adc\":7\x7d", attempt := 3, next_retry_ms := 3500 } ∧
    uplink_get_queue_depth c2_s4 = 0 := by
  have h0 : u.cfg.retry.max_attempts ≠ 0 := Nat.pos_iff_ne_zero.1 hmax
  have hna : (head.attempt + 1) % U16 = head.attempt + 1 := Nat.mod_eq_of_lt hbound
  have hallow : uplink_retry_is_attempt_allowed u.cfg.retry ((head.attempt + 1) % U16) = false := by
    rw [hna]
    simp [uplink_retry_is_attempt_allowed, h0]
    omega
  refine ⟨?_, by decide, by decide, by decide, by decide⟩
  simp [uplink_poll, hin, hs, hpeek, hdue, hallow]

/-- Witness for C2: the 4th poll of the scenario is exactly the
drop-without-send transition. -/
theorem C2_attempt_budget_drop_witness :
    uplink_poll c2_s3 (c2_fail_env 3500) =
      { c2_s3 with queue := (uplink_queue_pop c2_s3.queue).2 } :=
  (C2_attempt_budget_drop c2_s3 (c2_fail_env 3500)
    { message_id := 1, created_ms := 0, type := "LIGHT_ADC"
      payload_json := "\x7b\"adc\":7\x7d", attempt := 3, next_retry_ms := 3500 }
    (by decide) (by decide) (by decide) (by decide) (by decide) (by decide)
    (by decide)).1

/-- C4: the claim says values beyond the signed 32-bit range saturate rather
than wrap, and the code's own comment announces saturation, but the guard
`value > INT32_MAX / 10` misses the final-digit overflow: a body carrying
code 2147483648 wraps to -2147483648, and one carrying 21474836480 wraps all
the way to 0 (an application success!), while the spec-side saturating parse
yields INT32_MAX; sufficiently long digit strings (99999999999) do hit the
guard and saturate. -/
theorem C4_parse_saturation_wraps :
    uplink_codec_json_parse_app_code (("\x7b\"code\":2147483648\x7d").data)
      (("\x7b\"code\":2147483648\x7d").data.length) = -2147483648 ∧
    uplink_codec_json_parse_app_code (("\x7b\"code\":21474836480\x7d").data)
      (("\x7b\"code\":21474836480\x7d").data.length) = 0 ∧
    spec_parse_status_code (("\x7b\"code\":2147483648\x7d").data)
      (("\x7b\"code\":2147483648\x7d").data.length) = some INT32_MAX ∧
    uplink_codec_json_parse_app_code (("\x7b\"code\":99999999999\x7d").data)
      (("\x7b\"code\":99999999999\x7d").data.length) = INT32_MAX := by
  decide
